import Mathlib

/-!
Verification of the `ollama-chat-interface` repository.

Shallow embedding of the Python sources:
* `src/models/schemas.py` — pydantic data models and field validation,
* `src/services/ollama_service.py` — `chat_stream` and its error handling,
* `src/services/model_manager.py` — `filter_models`,
* `src/services/session_manager.py` — session persistence, listing, id generation,
* `src/ui/chat.py` — download-progress percentage and progress-bar rendering.

Machine floats are modelled as exact rationals (`ℚ`); `datetime` values as natural
numbers (for ordering) or as an explicit calendar tuple where the textual format
matters; the filesystem session store as a lookup function; the `re` module's
compiler and the Ollama daemon as explicit parameters describing their behaviour.
-/

namespace OllamaChat

/-! ### Data model (src/models/schemas.py) -/

/-- `ChatMessage.role` is `Literal["user", "assistant", "system"]`. -/
inductive Role where
  | user
  | assistant
  | system
  deriving DecidableEq, Repr

/-- `ChatMessage` from schemas.py; the timestamp only needs an order, so `Nat`. -/
structure ChatMessage where
  role : Role
  content : String
  timestamp : Nat
  deriving DecidableEq, Repr

/-- `ModelInfo` from schemas.py. -/
structure ModelInfo where
  name : String
  size : Option Nat
  modified_at : Option Nat
  digest : Option String
  family : Option String
  deriving DecidableEq, Repr

/-- `ModelParameters` field record (floats as exact rationals). -/
structure ModelParameters where
  temperature : ℚ
  top_p : ℚ
  max_tokens : Option Int
  deriving DecidableEq, Repr

/-- The `ge=1` bound on `max_tokens`; pydantic skips the bound when the value is `None`. -/
def maxTokensOk (m : Option Int) : Bool :=
  match m with
  | none => true
  | some k => 1 ≤ k

/-- Pydantic construction of `ModelParameters`: the `Field` bounds
`temperature ∈ [0, 2]`, `top_p ∈ [0, 1]`, `max_tokens ≥ 1` (when present) are
checked at construction; a violation raises a `ValidationError` (here: `none`).
Values are stored as given, never clamped. -/
def mkModelParameters (t p : ℚ) (m : Option Int) : Option ModelParameters :=
  if 0 ≤ t ∧ t ≤ 2 ∧ 0 ≤ p ∧ p ≤ 1 ∧ maxTokensOk m = true then
    some { temperature := t, top_p := p, max_tokens := m }
  else
    none

/-- `ChatSession` from schemas.py. -/
structure ChatSession where
  session_id : String
  model_name : String
  messages : List ChatMessage
  parameters : ModelParameters
  system_prompt : Option String
  created_at : Nat
  updated_at : Nat
  deriving DecidableEq, Repr

/-! ### Ollama service (src/services/ollama_service.py) -/

/-- The `message` object inside one streaming response fragment; its `content`
key may be missing. -/
structure FragmentMessage where
  content : Option String
  deriving DecidableEq, Repr

/-- One streaming response fragment `{"message": {"content": "..."}}`; the
`message` key itself may be missing. -/
structure Fragment where
  message : Option FragmentMessage
  deriving DecidableEq, Repr

/-- `chunk.get("message", {}).get("content", "")` from chat_stream. -/
def fragContent (f : Fragment) : String :=
  match f.message with
  | none => ""
  | some m => m.content.getD ""

/-- Behaviour of the daemon iteration inside `chat_stream`'s `try` block:
either the stream of fragments completes, or after some prefix of fragments a
`ConnectionError`, a `ResponseError` (with message text) or another exception
(with message text) is raised. -/
inductive DaemonOutcome where
  | ok (frags : List Fragment)
  | connError (frags : List Fragment)
  | respError (frags : List Fragment) (msg : String)
  | otherError (frags : List Fragment) (msg : String)
  deriving DecidableEq, Repr

/-- How the generator `chat_stream` terminates: normal completion, or raising
`OllamaNotRunningError` with its message. -/
inductive StreamEnd where
  | completed
  | raisedNotRunning (msg : String)
  deriving DecidableEq, Repr

/-- Message of the `OllamaNotRunningError` raised on `ConnectionError`. -/
def notRunningMsg : String := "Ollama is not running. Start it with: ollama serve"

/-- The explanatory chunk yielded when the selected model is an embedding model
(`"does not support chat"` found in the `ResponseError`). -/
def embeddingErrorText (model : String) : String :=
  "⚠️ **Error:** The model `" ++ model ++ "` is an embedding model and cannot be used for chat.\n\n" ++
  "**Embedding models** are designed for generating text embeddings (vector representations), " ++
  "not for conversational responses.\n\n" ++
  "**Solution:** Please select a chat model from the settings, such as:\n" ++
  "- llama3\n" ++
  "- mistral\n" ++
  "- gemma\n"

/-- The single chunk yielded by the `except ResponseError` branch of
`chat_stream`. -/
def respErrorText (model msg : String) : String :=
  if msg.containsSubstr "does not support chat" then embeddingErrorText model
  else "**Error:** " ++ msg

/-- The `for chunk in ollama.chat(...)` loop body of `chat_stream`: each
fragment's content is yielded exactly when it is a nonempty string
(`if content:`). -/
def streamLoop : List Fragment → List String
  | [] => []
  | f :: rest =>
      let content := fragContent f
      if content ≠ "" then content :: streamLoop rest else streamLoop rest

/-- `chat_stream(messages, model, params)` observed as the list of yielded
chunks together with how the generator ends, as a function of the daemon's
behaviour: fragments with text are yielded in order; a `ConnectionError` is
re-raised as `OllamaNotRunningError`; a `ResponseError` or any other exception
during iteration is converted into one final explanatory chunk and the
generator completes normally. -/
def chat_stream (model : String) (outcome : DaemonOutcome) : List String × StreamEnd :=
  match outcome with
  | .ok frags => (streamLoop frags, .completed)
  | .connError frags => (streamLoop frags, .raisedNotRunning notRunningMsg)
  | .respError frags msg => (streamLoop frags ++ [respErrorText model msg], .completed)
  | .otherError frags msg => (streamLoop frags ++ ["**Error:** " ++ msg], .completed)

/-- The `options` dict built by `chat_stream` for `ollama.chat`; `num_predict = none`
models the key being entirely absent from the dict. -/
structure ChatOptions where
  temperature : ℚ
  top_p : ℚ
  num_predict : Option Int
  deriving DecidableEq, Repr

/-- Lines 58-65 of ollama_service.py: `temperature` and `top_p` are copied, and
`num_predict` is set from `max_tokens` only under Python truthiness
(`if params.max_tokens:` — skipped for `None` and for `0`). -/
def buildOptions (params : ModelParameters) : ChatOptions :=
  { temperature := params.temperature
    top_p := params.top_p
    num_predict :=
      match params.max_tokens with
      | none => none
      | some k => if k ≠ 0 then some k else none }

/-! ### Session manager (src/services/session_manager.py) -/

/-- `save_session`. The filesystem store is a lookup: `none` means no file for
this id exists (`session_path.exists()` is false); `some none` means the file
exists but `load_session` cannot produce a session from it (it returns `None`
or raises, which `save_session` catches with a warning); `some (some s)` means
the existing record loads as `s`. `now1` is the `datetime.now()` taken for the
fresh `created_at`, `now2` the one taken for `updated_at`. The result is the
`ChatSession` record written to disk. -/
def save_session (store : String → Option (Option ChatSession))
    (session_id model_name : String) (messages : List ChatMessage)
    (parameters : ModelParameters) (system_prompt : Option String)
    (now1 now2 : Nat) : ChatSession :=
  let created_at :=
    match store session_id with
    | none => now1
    | some none => now1
    | some (some existing) => existing.created_at
  { session_id := session_id
    model_name := model_name
    messages := messages
    parameters := parameters
    system_prompt := system_prompt
    created_at := created_at
    updated_at := now2 }

/-- `get_session_preview`: first user message, stripped, newlines replaced by
spaces, truncated to `max_length` characters with an ellipsis; the session id
when there is no user message. -/
def get_session_preview (session : ChatSession) (max_length : Nat) : String :=
  match session.messages.find? (fun m => decide (m.role = Role.user)) with
  | some msg =>
      let preview := (msg.content.trim).replace "\n" " "
      if max_length < preview.length then preview.take max_length ++ "..." else preview
  | none => session.session_id

/-- One entry of the `list_sessions_detailed` result dict. -/
structure SessionDetail where
  session_id : String
  preview : String
  message_count : Nat
  model : String
  created_at : Nat
  updated_at : Nat
  deriving DecidableEq, Repr

/-- The loop body of `list_sessions_detailed`: a stored session that loads
contributes one detail entry; one whose load fails is skipped. -/
def detailEntry (entry : String × Option ChatSession) : Option SessionDetail :=
  match entry.2 with
  | none => none
  | some session =>
      some { session_id := entry.1
             preview := get_session_preview session 50
             message_count := session.messages.length
             model := session.model_name
             created_at := session.created_at
             updated_at := session.updated_at }

/-- Insertion step of the stable sort by `updated_at` descending
(`detailed_sessions.sort(key=lambda x: x["updated_at"], reverse=True)`). -/
def insertByUpdatedDesc (d : SessionDetail) : List SessionDetail → List SessionDetail
  | [] => [d]
  | e :: rest =>
      if e.updated_at < d.updated_at then d :: e :: rest
      else e :: insertByUpdatedDesc d rest

/-- Sort by `updated_at` descending. -/
def sortByUpdatedDesc : List SessionDetail → List SessionDetail
  | [] => []
  | d :: rest => insertByUpdatedDesc d (sortByUpdatedDesc rest)

/-- `list_sessions_detailed`, as a function of the stored sessions with their
load results (the directory scan order of `list_sessions` is the list order). -/
def list_sessions_detailed (stored : List (String × Option ChatSession)) : List SessionDetail :=
  sortByUpdatedDesc (stored.filterMap detailEntry)

/-- A wall-clock instant at the precision `datetime.now()` delivers: calendar
second plus microseconds. -/
structure Timestamp where
  year : Nat
  month : Nat
  day : Nat
  hour : Nat
  minute : Nat
  second : Nat
  microsecond : Nat
  deriving DecidableEq, Repr

/-- Two-digit zero-padded decimal rendering (strftime `%m`, `%d`, `%H`, `%M`, `%S`). -/
def pad2 (n : Nat) : String :=
  String.mk [Nat.digitChar (n / 10), Nat.digitChar (n % 10)]

/-- Four-digit zero-padded decimal rendering (strftime `%Y`). -/
def pad4 (n : Nat) : String :=
  String.mk [Nat.digitChar (n / 1000), Nat.digitChar (n / 100 % 10),
             Nat.digitChar (n / 10 % 10), Nat.digitChar (n % 10)]

/-- `generate_session_id`: `datetime.now().strftime("%Y-%m-%d_%H-%M-%S")`.
The microseconds of the instant do not appear in the identifier. -/
def generate_session_id (t : Timestamp) : String :=
  pad4 t.year ++ "-" ++ pad2 t.month ++ "-" ++ pad2 t.day ++ "_" ++
  pad2 t.hour ++ "-" ++ pad2 t.minute ++ "-" ++ pad2 t.second

/-- Reads the six numeric fields back out of a 19-character identifier;
left inverse of `generate_session_id` on in-range timestamps. -/
def decode2 (c1 c0 : Char) : Nat := (c1.toNat - 48) * 10 + (c0.toNat - 48)

/-- Four-digit counterpart of `decode2`. -/
def decode4 (c3 c2 c1 c0 : Char) : Nat :=
  (c3.toNat - 48) * 1000 + (c2.toNat - 48) * 100 + (c1.toNat - 48) * 10 + (c0.toNat - 48)

/-- Field-wise decoding of a session identifier string. -/
def decodeSessionId (s : String) : Option (Nat × Nat × Nat × Nat × Nat × Nat) :=
  match s.data with
  | [y3, y2, y1, y0, _, m1, m0, _, d1, d0, _, h1, h0, _, n1, n0, _, s1, s0] =>
      some (decode4 y3 y2 y1 y0, decode2 m1 m0, decode2 d1 d0,
            decode2 h1 h0, decode2 n1 n0, decode2 s1 s0)
  | _ => none

/-! ### Model manager (src/services/model_manager.py) -/

/-- `filter_models`, with `re.compile` modelled as a parameter: `compile pat`
is `some matcher` when the pattern compiles (the matcher being
`regex.search` on a name) and `none` when compilation raises `re.error`.
An empty pattern (`if not pattern:`) and a failed compilation both return the
input unfiltered. -/
def filter_models (compile : String → Option (String → Bool))
    (models : List ModelInfo) (pattern : String) : List ModelInfo :=
  if pattern = "" then models
  else
    match compile pattern with
    | some matcher => models.filter (fun m => matcher m.name)
    | none => models

/-! ### Download progress rendering (src/ui/chat.py, on_chat_start) -/

/-- `completed = progress.get("completed") or 0`: a missing value is 0
(and a present 0 stays 0 under Python's `or`). -/
def progressCompleted (copt : Option Nat) : Nat :=
  match copt with
  | none => 0
  | some c => c

/-- `total = progress.get("total") or 1`: Python's `or` coalesces both a
missing value and a present falsy `0` to 1. -/
def progressTotal (topt : Option Nat) : Nat :=
  match topt with
  | none => 1
  | some t => if t = 0 then 1 else t

/-- `percentage = int((completed / total) * 100) if total and total > 0 else 0`,
with exact arithmetic (`int` of a nonnegative quotient is the floor). -/
def progressPercentage (copt topt : Option Nat) : Nat :=
  let completed := progressCompleted copt
  let total := progressTotal topt
  if 0 < total then completed * 100 / total else 0

/-- `filled = int(bar_length * percentage / 100)` with `bar_length = 20`. -/
def progressFilled (percentage : Nat) : Nat := 20 * percentage / 100

/-- The bar string `"█" * filled + "░" * (bar_length - filled)` (Python's `*`
with a negative count yields the empty string, as does truncated `Nat`
subtraction). -/
def progressBar (percentage : Nat) : String :=
  String.mk (List.replicate (progressFilled percentage) '█' ++
             List.replicate (20 - progressFilled percentage) '░')

/-- Modelled from the spec: the snapshot-tolerance rule as the spec words it —
missing `completed` is 0, missing `total` is 1, and the percentage is
`floor(completed / total * 100)` when `total > 0`, else `0`. A *present* zero
`total` is kept (only missing fields are defaulted). -/
def specProgressPercentage (copt topt : Option Nat) : Nat :=
  let completed := copt.getD 0
  let total := topt.getD 1
  if 0 < total then completed * 100 / total else 0

/-! ### Concrete data for closed instances -/

/-- `ModelParameters` at the pydantic defaults (0.7, 0.9, None). -/
def defaultParameters : ModelParameters :=
  { temperature := 7 / 10, top_p := 9 / 10, max_tokens := none }

/-- A stored session with a given `updated_at` time. -/
def exampleSession (n : Nat) : ChatSession :=
  { session_id := "x"
    model_name := "llama3"
    messages := []
    parameters := defaultParameters
    system_prompt := none
    created_at := 0
    updated_at := n }

/-! ## Theorems -/

/-- A string of positive length is not the empty string. -/
lemma ne_empty_of_length_pos (s : String) (h : 0 < s.length) : s ≠ "" := by
  intro he
  subst he
  exact absurd h (by decide)

/-- The generic inline error chunk is never the empty string. -/
lemma error_prefix_ne_empty (msg : String) : ("**Error:** " ++ msg) ≠ "" := by
  apply ne_empty_of_length_pos
  rw [String.length_append]
  have h : 0 < ("**Error:** " : String).length := by decide
  omega

/-- The `ResponseError` chunk is never the empty string. -/
lemma respErrorText_ne_empty (model msg : String) : respErrorText model msg ≠ "" := by
  rw [respErrorText]
  split
  · apply ne_empty_of_length_pos
    rw [embeddingErrorText]
    simp only [String.length_append]
    have h : 0 < ("⚠️ **Error:** The model `" : String).length := by decide
    omega
  · exact error_prefix_ne_empty msg

/-- Claim C1: on a completed daemon stream, `chat_stream` yields exactly one
chunk per fragment with nonempty text content, in daemon-delivery order,
nothing for fragments whose content is empty or missing, and the generator
terminates normally; concretely, contents `["Hello", "", " world"]` yield
exactly `["Hello", " world"]`. -/
theorem chat_stream_one_chunk_per_nonempty_fragment (model : String) (frags : List Fragment) :
    chat_stream model (.ok frags) =
      ((frags.map fragContent).filter (fun s => s ≠ ""), .completed)
  ∧ chat_stream "llama3" (.ok
      [{ message := some { content := some "Hello" } },
       { message := some { content := some "" } },
       { message := some { content := some " world" } }]) =
      (["Hello", " world"], .completed) := by
  constructor
  · show (streamLoop frags, StreamEnd.completed) = _
    rw [Prod.mk.injEq]
    refine ⟨?_, rfl⟩
    induction frags with
    | nil => rfl
    | cons f rest ih =>
        by_cases h : fragContent f = ""
        · simp [streamLoop, h, ih]
        · simp [streamLoop, h, ih]
  · decide

/-- Claim C2: a `ConnectionError` raised before any fragment is produced makes
`chat_stream` raise `OllamaNotRunningError` before yielding any chunk. -/
theorem chat_stream_conn_error_before_start_raises (model : String) :
    chat_stream model (.connError []) = ([], .raisedNotRunning notRunningMsg) := rfl

/-- Claim C3: a `ResponseError` (e.g. a model-capability mismatch) or any other
unexpected exception during iteration is not propagated: `chat_stream` yields
exactly one nonempty explanatory chunk after the chunks already yielded and the
generator completes normally. -/
theorem chat_stream_inline_error_chunk_no_raise (model msg : String) (frags : List Fragment) :
    (∃ t, t ≠ "" ∧
      chat_stream model (.respError frags msg) = (streamLoop frags ++ [t], .completed))
  ∧ (∃ t, t ≠ "" ∧
      chat_stream model (.otherError frags msg) = (streamLoop frags ++ [t], .completed)) :=
  ⟨⟨respErrorText model msg, respErrorText_ne_empty model msg, rfl⟩,
   ⟨"**Error:** " ++ msg, error_prefix_ne_empty msg, rfl⟩⟩

/-- Claim C4: a save over an existing record keeps the existing `created_at`
and only refreshes `updated_at` to the save time; when the existing record
cannot be read, the fresh timestamp is used and the save still succeeds (the
record is written with the given fields). -/
theorem save_session_preserves_created_at
    (store : String → Option (Option ChatSession)) (sid mn : String)
    (msgs : List ChatMessage) (params : ModelParameters) (sys : Option String)
    (now1 now2 : Nat) :
    (∀ existing, store sid = some (some existing) →
      (save_session store sid mn msgs params sys now1 now2).created_at = existing.created_at)
  ∧ (store sid = some none →
      (save_session store sid mn msgs params sys now1 now2).created_at = now1)
  ∧ (save_session store sid mn msgs params sys now1 now2).updated_at = now2
  ∧ (save_session store sid mn msgs params sys now1 now2).session_id = sid
  ∧ (save_session store sid mn msgs params sys now1 now2).model_name = mn
  ∧ (save_session store sid mn msgs params sys now1 now2).messages = msgs := by
  refine ⟨?_, ?_, rfl, rfl, rfl, rfl⟩
  · intro existing h
    simp [save_session, h]
  · intro h
    simp [save_session, h]

/-- Witness for C4 at a concrete store: a second save over `exampleSession 5`
keeps its `created_at`, and a save over an unreadable record uses the fresh
timestamp 99. -/
theorem save_session_preserves_created_at_witness :
    (save_session (fun _ => some (some (exampleSession 5))) "s" "m" [] defaultParameters
      none 99 100).created_at = (exampleSession 5).created_at
  ∧ (save_session (fun _ => some none) "s" "m" [] defaultParameters
      none 99 100).created_at = 99 :=
  ⟨(save_session_preserves_created_at _ "s" "m" [] defaultParameters none 99 100).1
      (exampleSession 5) rfl,
   (save_session_preserves_created_at _ "s" "m" [] defaultParameters none 99 100).2.1 rfl⟩

/-- The `max_tokens` bound as a proposition. -/
lemma maxTokensOk_iff (m : Option Int) :
    maxTokensOk m = true ↔ (m = none ∨ ∃ k, m = some k ∧ 1 ≤ k) := by
  cases m with
  | none => simp [maxTokensOk]
  | some k => simp [maxTokensOk]

/-- Claim C5: `ModelParameters(t, p, m)` construction succeeds iff
`0 ≤ t ≤ 2`, `0 ≤ p ≤ 1` and `m` is absent or at least 1; on success the
stored values equal the inputs (no clamping). -/
theorem model_parameters_validation_iff (t p : ℚ) (m : Option Int) :
    ((mkModelParameters t p m).isSome ↔
      (0 ≤ t ∧ t ≤ 2 ∧ 0 ≤ p ∧ p ≤ 1 ∧ (m = none ∨ ∃ k, m = some k ∧ 1 ≤ k)))
  ∧ (∀ q, mkModelParameters t p m = some q →
      q.temperature = t ∧ q.top_p = p ∧ q.max_tokens = m) := by
  constructor
  · rw [mkModelParameters]
    split
    · rename_i h
      rw [maxTokensOk_iff] at h
      simp [h]
    · rename_i h
      rw [maxTokensOk_iff] at h
      simp [h]
  · intro q hq
    rw [mkModelParameters] at hq
    split at hq
    · obtain rfl := Option.some.inj hq
      exact ⟨rfl, rfl, rfl⟩
    · exact absurd hq (by simp)

/-- Witness for C5 at concrete in-range values (1, 1/2, 5): construction
succeeds and stores the inputs unchanged. -/
theorem model_parameters_validation_iff_witness :
    ((mkModelParameters 1 (1 / 2) (some 5)).isSome ↔
      ((0 : ℚ) ≤ 1 ∧ (1 : ℚ) ≤ 2 ∧ (0 : ℚ) ≤ 1 / 2 ∧ (1 : ℚ) / 2 ≤ 1 ∧
        ((some 5 : Option Int) = none ∨ ∃ k, (some 5 : Option Int) = some k ∧ 1 ≤ k)))
  ∧ ({ temperature := 1, top_p := 1 / 2, max_tokens := some 5 } :
      ModelParameters).temperature = 1
  ∧ ({ temperature := 1, top_p := 1 / 2, max_tokens := some 5 } :
      ModelParameters).top_p = 1 / 2
  ∧ ({ temperature := 1, top_p := 1 / 2, max_tokens := some 5 } :
      ModelParameters).max_tokens = some 5 := by
  have hcond : (0 : ℚ) ≤ 1 ∧ (1 : ℚ) ≤ 2 ∧ (0 : ℚ) ≤ 1 / 2 ∧ (1 : ℚ) / 2 ≤ 1 ∧
      maxTokensOk (some 5) = true :=
    ⟨by norm_num, by norm_num, by norm_num, by norm_num, rfl⟩
  have hmk : mkModelParameters 1 (1 / 2) (some 5) =
      some { temperature := 1, top_p := 1 / 2, max_tokens := some 5 } := by
    rw [mkModelParameters, if_pos hcond]
  have h := model_parameters_validation_iff 1 (1 / 2) (some 5)
  have h2 := h.2 { temperature := 1, top_p := 1 / 2, max_tokens := some 5 } hmk
  exact ⟨h.1, h2.1, h2.2.1, h2.2.2⟩

/-- Claim C6: a nonempty pattern that fails to compile makes `filter_models`
return the full original input list unchanged (it never raises; the warning is
the only other effect). -/
theorem filter_models_invalid_pattern_full_list
    (compile : String → Option (String → Bool)) (models : List ModelInfo)
    (pattern : String) (hp : pattern ≠ "") (hc : compile pattern = none) :
    filter_models compile models pattern = models := by
  rw [filter_models, if_neg hp, hc]

/-- Witness for C6: the uncompilable pattern `"[invalid"` leaves a concrete
model list untouched. -/
theorem filter_models_invalid_pattern_witness :
    filter_models (fun _ => none)
      [{ name := "llama3", size := none, modified_at := none, digest := none, family := none }]
      "[invalid" =
      [{ name := "llama3", size := none, modified_at := none, digest := none, family := none }] :=
  filter_models_invalid_pattern_full_list (fun _ => none) _ "[invalid" (by decide) rfl

/-- Claim C7: in the options built for the daemon call, `temperature` and
`top_p` pass through verbatim, and `num_predict` equals `max_tokens` exactly:
present (≥ 1) when set, entirely absent when unset. The hypothesis is the
pydantic invariant every constructed `ModelParameters` satisfies. -/
theorem chat_options_num_predict_mapping (params : ModelParameters)
    (h : params.max_tokens = none ∨ ∃ k, params.max_tokens = some k ∧ 1 ≤ k) :
    (buildOptions params).temperature = params.temperature
  ∧ (buildOptions params).top_p = params.top_p
  ∧ (buildOptions params).num_predict = params.max_tokens := by
  refine ⟨rfl, rfl, ?_⟩
  rcases h with h | ⟨k, hk, h1⟩
  · simp [buildOptions, h]
  · have hk0 : k ≠ 0 := by omega
    simp [buildOptions, hk, hk0]

/-- Witness for C7 with `max_tokens = 128`: `num_predict` is present as 128,
and the sampling parameters pass through. -/
theorem chat_options_num_predict_mapping_witness :
    (buildOptions { temperature := 7 / 10, top_p := 9 / 10, max_tokens := some 128 }).temperature
      = 7 / 10
  ∧ (buildOptions { temperature := 7 / 10, top_p := 9 / 10, max_tokens := some 128 }).top_p
      = 9 / 10
  ∧ (buildOptions { temperature := 7 / 10, top_p := 9 / 10, max_tokens := some 128 }).num_predict
      = some 128 :=
  chat_options_num_predict_mapping
    { temperature := 7 / 10, top_p := 9 / 10, max_tokens := some 128 }
    (Or.inr ⟨128, rfl, by decide⟩)

/-- Inserting into a list keeps its elements (plus the inserted one). -/
lemma perm_insertByUpdatedDesc (d : SessionDetail) :
    ∀ l : List SessionDetail, List.Perm (insertByUpdatedDesc d l) (d :: l)
  | [] => List.Perm.refl _
  | e :: rest => by
      rw [insertByUpdatedDesc]
      split
      · exact List.Perm.refl _
      · exact ((perm_insertByUpdatedDesc d rest).cons e).trans (List.Perm.swap d e rest)

/-- Insertion preserves the descending-`updated_at` invariant. -/
lemma pairwise_insertByUpdatedDesc (d : SessionDetail) :
    ∀ l : List SessionDetail,
      l.Pairwise (fun a b => b.updated_at ≤ a.updated_at) →
      (insertByUpdatedDesc d l).Pairwise (fun a b => b.updated_at ≤ a.updated_at)
  | [], _ => List.Pairwise.cons (by simp) List.Pairwise.nil
  | e :: rest, h => by
      rw [insertByUpdatedDesc]
      rw [List.pairwise_cons] at h
      split
      · rename_i hlt
        rw [List.pairwise_cons]
        constructor
        · intro x hx
          rcases List.mem_cons.mp hx with rfl | hmem
          · omega
          · have hle := h.1 x hmem
            omega
        · exact List.pairwise_cons.mpr h
      · rename_i hge
        rw [List.pairwise_cons]
        refine ⟨?_, pairwise_insertByUpdatedDesc d rest h.2⟩
        intro x hx
        have hx2 := (perm_insertByUpdatedDesc d rest).mem_iff.mp hx
        rcases List.mem_cons.mp hx2 with rfl | hmem
        · omega
        · exact h.1 x hmem

/-- The sort is a permutation of its input. -/
lemma perm_sortByUpdatedDesc :
    ∀ l : List SessionDetail, List.Perm (sortByUpdatedDesc l) l
  | [] => List.Perm.refl _
  | d :: rest => (perm_insertByUpdatedDesc d _).trans ((perm_sortByUpdatedDesc rest).cons d)

/-- The sort output is descending in `updated_at`. -/
lemma pairwise_sortByUpdatedDesc :
    ∀ l : List SessionDetail,
      (sortByUpdatedDesc l).Pairwise (fun a b => b.updated_at ≤ a.updated_at)
  | [] => List.Pairwise.nil
  | d :: rest => pairwise_insertByUpdatedDesc d _ (pairwise_sortByUpdatedDesc rest)

/-- Claim C8: `list_sessions_detailed` yields exactly one detail entry per
loadable stored session (failures to load are skipped, not fatal), sorted by
`updated_at` descending; concretely, sessions updated at times 1 < 2 < 3 come
back in order 3, 2, 1 with the unloadable one dropped. -/
theorem list_sessions_detailed_sorted_desc (stored : List (String × Option ChatSession)) :
    (list_sessions_detailed stored).Pairwise (fun a b => b.updated_at ≤ a.updated_at)
  ∧ List.Perm (list_sessions_detailed stored) (stored.filterMap detailEntry)
  ∧ (list_sessions_detailed
      [("s1", some (exampleSession 1)), ("bad", none),
       ("s2", some (exampleSession 2)), ("s3", some (exampleSession 3))]).map
      (fun d => (d.session_id, d.updated_at)) = [("s3", 3), ("s2", 2), ("s1", 1)] :=
  ⟨pairwise_sortByUpdatedDesc _, perm_sortByUpdatedDesc _, by decide⟩

/-- Counterexample to Claim C9: for the snapshot `{completed: 5, total: 0}`
(total present but zero), the spec formula gives percentage 0 while the code's
`or`-coalescing turns the zero total into 1 and computes 500. -/
theorem progress_total_zero_counterexample :
    progressPercentage (some 5) (some 0) = 500
  ∧ specProgressPercentage (some 5) (some 0) = 0
  ∧ progressPercentage (some 5) (some 0) ≠ specProgressPercentage (some 5) (some 0) := by
  decide

/-- Claim C9 (amended): a missing `completed` is treated as 0 and a missing
*or zero* `total` as 1, so the effective total is always at least 1 and the
percentage is always `floor(completed * 100 / total)` over the effective
values; the 20-cell bar fills `floor(20 * percentage / 100)` cells; in
particular `completed = 2500, total = 5000` gives percentage 50 and 10 filled
cells. -/
theorem progress_snapshot_rendering (copt topt : Option Nat) :
    1 ≤ progressTotal topt
  ∧ progressPercentage copt topt = progressCompleted copt * 100 / progressTotal topt
  ∧ progressCompleted none = 0
  ∧ progressTotal none = 1
  ∧ progressTotal (some 0) = 1
  ∧ (∀ t : Nat, progressTotal (some (t + 1)) = t + 1)
  ∧ progressPercentage (some 2500) (some 5000) = 50
  ∧ progressFilled (progressPercentage (some 2500) (some 5000)) = 10
  ∧ progressBar (progressPercentage (some 2500) (some 5000)) =
      String.mk (List.replicate 10 '█' ++ List.replicate 10 '░') := by
  have h1 : 1 ≤ progressTotal topt := by
    cases topt with
    | none => decide
    | some t =>
        rw [progressTotal]
        split
        · omega
        · omega
  refine ⟨h1, ?_, rfl, rfl, rfl, ?_, by decide, by decide, by decide⟩
  · show (if 0 < progressTotal topt then progressCompleted copt * 100 / progressTotal topt
        else 0) = progressCompleted copt * 100 / progressTotal topt
    rw [if_pos (by omega)]
  · intro t
    rw [progressTotal]
    simp

/-- Reading the two digit characters of a decimal digit pair. -/
lemma digitChar_toNat_of_lt (d : Nat) (h : d < 10) : (Nat.digitChar d).toNat = 48 + d := by
  interval_cases d <;> decide

/-- `decode2` inverts the two-digit rendering. -/
lemma decode2_digitChar (n : Nat) (h : n < 100) :
    decode2 (Nat.digitChar (n / 10)) (Nat.digitChar (n % 10)) = n := by
  have h1 : n / 10 < 10 := by omega
  have h2 : n % 10 < 10 := by omega
  rw [decode2, digitChar_toNat_of_lt _ h1, digitChar_toNat_of_lt _ h2]
  omega

/-- `decode4` inverts the four-digit rendering. -/
lemma decode4_digitChar (n : Nat) (h : n < 10000) :
    decode4 (Nat.digitChar (n / 1000)) (Nat.digitChar (n / 100 % 10))
      (Nat.digitChar (n / 10 % 10)) (Nat.digitChar (n % 10)) = n := by
  have h3 : n / 1000 < 10 := by omega
  have h2 : n / 100 % 10 < 10 := by omega
  have h1 : n / 10 % 10 < 10 := by omega
  have h0 : n % 10 < 10 := by omega
  rw [decode4, digitChar_toNat_of_lt _ h3, digitChar_toNat_of_lt _ h2,
      digitChar_toNat_of_lt _ h1, digitChar_toNat_of_lt _ h0]
  omega

/-- `decodeSessionId` is a left inverse of `generate_session_id` on in-range
timestamps. -/
lemma decodeSessionId_generate (t : Timestamp)
    (hy : t.year < 10000) (hmo : t.month < 100) (hd : t.day < 100)
    (hh : t.hour < 100) (hmi : t.minute < 100) (hs : t.second < 100) :
    decodeSessionId (generate_session_id t) =
      some (t.year, t.month, t.day, t.hour, t.minute, t.second) := by
  have hstep : decodeSessionId (generate_session_id t) =
      some (decode4 (Nat.digitChar (t.year / 1000)) (Nat.digitChar (t.year / 100 % 10))
              (Nat.digitChar (t.year / 10 % 10)) (Nat.digitChar (t.year % 10)),
            decode2 (Nat.digitChar (t.month / 10)) (Nat.digitChar (t.month % 10)),
            decode2 (Nat.digitChar (t.day / 10)) (Nat.digitChar (t.day % 10)),
            decode2 (Nat.digitChar (t.hour / 10)) (Nat.digitChar (t.hour % 10)),
            decode2 (Nat.digitChar (t.minute / 10)) (Nat.digitChar (t.minute % 10)),
            decode2 (Nat.digitChar (t.second / 10)) (Nat.digitChar (t.second % 10))) := rfl
  rw [hstep, decode4_digitChar _ hy, decode2_digitChar _ hmo, decode2_digitChar _ hd,
      decode2_digitChar _ hh, decode2_digitChar _ hmi, decode2_digitChar _ hs]

/-- Counterexample to Claim C10: two distinct calls within the same wall-clock
second — instants differing only in microseconds — produce the *same*
session identifier. -/
theorem generate_session_id_same_second_collision :
    (⟨2026, 10, 12, 3, 4, 5, 0⟩ : Timestamp) ≠ (⟨2026, 10, 12, 3, 4, 5, 500000⟩ : Timestamp)
  ∧ generate_session_id ⟨2026, 10, 12, 3, 4, 5, 0⟩ =
      generate_session_id ⟨2026, 10, 12, 3, 4, 5, 500000⟩ :=
  ⟨by decide, rfl⟩

/-- Claim C10 (amended): two calls of `generate_session_id` return equal
identifiers exactly when their instants agree at second granularity; in
particular calls in different seconds get distinct identifiers, while calls
within the same second collide. -/
theorem generate_session_id_collision_iff_same_second (t1 t2 : Timestamp)
    (h1y : t1.year < 10000) (h1mo : t1.month < 100) (h1d : t1.day < 100)
    (h1h : t1.hour < 100) (h1mi : t1.minute < 100) (h1s : t1.second < 100)
    (h2y : t2.year < 10000) (h2mo : t2.month < 100) (h2d : t2.day < 100)
    (h2h : t2.hour < 100) (h2mi : t2.minute < 100) (h2s : t2.second < 100) :
    generate_session_id t1 = generate_session_id t2 ↔
      (t1.year = t2.year ∧ t1.month = t2.month ∧ t1.day = t2.day ∧
       t1.hour = t2.hour ∧ t1.minute = t2.minute ∧ t1.second = t2.second) := by
  constructor
  · intro h
    have hdec := congrArg decodeSessionId h
    rw [decodeSessionId_generate t1 h1y h1mo h1d h1h h1mi h1s,
        decodeSessionId_generate t2 h2y h2mo h2d h2h h2mi h2s] at hdec
    simp only [Option.some.injEq, Prod.mk.injEq] at hdec
    exact ⟨hdec.1, hdec.2.1, hdec.2.2.1, hdec.2.2.2.1, hdec.2.2.2.2.1, hdec.2.2.2.2.2⟩
  · rintro ⟨e1, e2, e3, e4, e5, e6⟩
    rw [generate_session_id, generate_session_id, e1, e2, e3, e4, e5, e6]

/-- Witness for the amended C10: instants one second apart give distinct
identifiers. -/
theorem generate_session_id_collision_iff_witness :
    generate_session_id ⟨2026, 10, 12, 3, 4, 5, 0⟩ ≠
      generate_session_id ⟨2026, 10, 12, 3, 4, 6, 0⟩ :=
  fun h =>
    absurd
      ((generate_session_id_collision_iff_same_second
          ⟨2026, 10, 12, 3, 4, 5, 0⟩ ⟨2026, 10, 12, 3, 4, 6, 0⟩
          (by decide) (by decide) (by decide) (by decide) (by decide) (by decide)
          (by decide) (by decide) (by decide) (by decide) (by decide) (by decide)).mp
        h).2.2.2.2.2
      (by decide)

end OllamaChat
